import Mathlib

/-!
Verification of the DW1000 UWB driver core (transport, device lifecycle,
extension-callback registry, TWR engine, range scheduler) against its
natural-language specification.  The definitions below are shallow
embeddings of the C sources in src/dw1000/src; machine integers are
modelled as Nat with explicit reduction modulo 2^w, the final
floating-point division of the time-of-flight computation is modelled as
exact rational division, and the driver's float return is otherwise an
exact image of the integer arithmetic performed by the C code.
-/

namespace DW1000

/-- Frame control word carried by all TWR traffic (spec section 6). -/
def FCNTL_IEEE_RANGE_16 : Nat := 0x8841

/-- Modelled from the spec: device identifier accepted by the probe and
wakeup loops (`dw1000_regs.h` is not among the sources; `dw1000_dev.c`
also compares against the literal 0xDECA0130). -/
def DWT_DEVICE_ID : Nat := 0xDECA0130

/-- Modelled from the spec: TWR code enum values (`dw1000_rng.h` is not
among the sources).  Spec section 6 gives the contiguous ranges
SS 0x0000-0x000F, DS 0x0010-0x001F, DS-EXT 0x0020-0x002F and the member
lists in canonical order. -/
def DWT_SS_TWR : Nat := 0x0000

/-- Modelled from the spec: second SS-TWR code. -/
def DWT_SS_TWR_T1 : Nat := 0x0001

/-- Modelled from the spec: final SS-TWR code. -/
def DWT_SS_TWR_FINAL : Nat := 0x0002

/-- Modelled from the spec: end of the SS-TWR code range. -/
def DWT_SS_TWR_END : Nat := 0x000F

/-- Modelled from the spec: first DS-TWR code. -/
def DWT_DS_TWR : Nat := 0x0010

/-- Modelled from the spec: second DS-TWR code. -/
def DWT_DS_TWR_T1 : Nat := 0x0011

/-- Modelled from the spec: third DS-TWR code. -/
def DWT_DS_TWR_T2 : Nat := 0x0012

/-- Modelled from the spec: final DS-TWR code. -/
def DWT_DS_TWR_FINAL : Nat := 0x0013

/-- Modelled from the spec: end of the DS-TWR code range. -/
def DWT_DS_TWR_END : Nat := 0x001F

/-- Modelled from the spec: first DS-TWR-EXT code. -/
def DWT_DS_TWR_EXT : Nat := 0x0020

/-- Modelled from the spec: second DS-TWR-EXT code. -/
def DWT_DS_TWR_EXT_T1 : Nat := 0x0021

/-- Modelled from the spec: third DS-TWR-EXT code. -/
def DWT_DS_TWR_EXT_T2 : Nat := 0x0022

/-- Modelled from the spec: final DS-TWR-EXT code. -/
def DWT_DS_TWR_EXT_FINAL : Nat := 0x0023

/-- Modelled from the spec: end of the DS-TWR-EXT code range. -/
def DWT_DS_TWR_EXT_END : Nat := 0x002F

/-- Reduction modulo 2^8 (uint8_t). -/
def u8 (x : Nat) : Nat := x % 2 ^ 8

/-- Reduction modulo 2^16 (uint16_t). -/
def u16 (x : Nat) : Nat := x % 2 ^ 16

/-- Reduction modulo 2^32 (uint32_t). -/
def u32 (x : Nat) : Nat := x % 2 ^ 32

/-- Reduction modulo 2^64 (uint64_t). -/
def u64 (x : Nat) : Nat := x % 2 ^ 64

/-- C uint64_t subtraction: wraps modulo 2^64 when the subtrahend exceeds
the minuend. -/
def u64sub (a b : Nat) : Nat := (a % 2 ^ 64 + (2 ^ 64 - b % 2 ^ 64)) % 2 ^ 64

/-- Reinterpretation of a uint64_t bit pattern as int64_t (two's
complement), as performed by the C assignments to `nom` and `denom` in
`dw1000_rng_twr_to_tof`. -/
def toInt64 (x : Nat) : Int :=
  if x % 2 ^ 64 < 2 ^ 63 then ((x % 2 ^ 64 : Nat) : Int)
  else ((x % 2 ^ 64 : Nat) : Int) - 2 ^ 64

/-- Modelled from the spec: one TWR frame slot (`twr_frame_t`, declared in
the missing `dw1000_ftypes.h`/`dw1000_rng.h`).  The four timestamps are
40-bit device times held in 64-bit storage; the extended payload
(cartesian/spherical records) is not needed by any claim and is omitted. -/
structure TwrFrame where
  fctrl : Nat := 0
  seq_num : Nat := 0
  pan_id : Nat := 0
  dst_address : Nat := 0
  src_address : Nat := 0
  code : Nat := 0
  reception_timestamp : Nat := 0
  transmission_timestamp : Nat := 0
  request_timestamp : Nat := 0
  response_timestamp : Nat := 0
deriving DecidableEq, Repr, Inhabited

/-- Embedding of `dw1000_rng_twr_to_tof(fframe, nframe)`
(src/dw1000/src/dw1000_rng.c lines 300-330, the MYNEWT_VAL(DW1000_RANGE)
variant).  All subtractions are C uint64_t subtractions; `nom` and
`denom` are int64_t reinterpretations; the final float division is
modelled as exact rational division (the division is the only
floating-point step in the C code). -/
def dw1000_rng_twr_to_tof (fframe nframe : TwrFrame) : ℚ :=
  if DWT_SS_TWR ≤ nframe.code ∧ nframe.code ≤ DWT_SS_TWR_END then
    ((u64sub (u64sub fframe.response_timestamp fframe.request_timestamp)
        (u64sub fframe.transmission_timestamp fframe.reception_timestamp) : ℚ)) / 2
  else if (DWT_DS_TWR ≤ nframe.code ∧ nframe.code ≤ DWT_DS_TWR_END) ∨
      (DWT_DS_TWR_EXT ≤ nframe.code ∧ nframe.code ≤ DWT_DS_TWR_EXT_END) then
    let T1R := u64sub fframe.response_timestamp fframe.request_timestamp
    let T1r := u64sub fframe.transmission_timestamp fframe.reception_timestamp
    let T2R := u64sub nframe.response_timestamp nframe.request_timestamp
    let T2r := u64sub nframe.transmission_timestamp nframe.reception_timestamp
    let nom : Int := toInt64 (u64sub (T1R * T2R) (T1r * T2r))
    let denom : Int := toInt64 ((T1R + T2R + T1r + T2r) % 2 ^ 64)
    (nom : ℚ) / (denom : ℚ)
  else 0

/-- Embedding of `dw1000_find_extension_callbacks_position`
(src/dw1000/src/dw1000_dev.c lines 497-509): the chain is modelled by the
list of entry ids; the function returns the index of the first entry with
the given id, or -1. -/
def dw1000_find_extension_callbacks_position (chain : List Nat) (id : Nat) : Int :=
  match chain with
  | [] => -1
  | c :: rest =>
    if c = id then 0
    else
      let r := dw1000_find_extension_callbacks_position rest id
      if r = -1 then -1 else r + 1

/-- Embedding of `dw1000_remove_extension_callbacks`
(src/dw1000/src/dw1000_dev.c lines 467-488).  With `pos` the result of
the position lookup: at `pos = 0` the head is unlinked; otherwise the
code walks `temp` while `temp != NULL && count < pos-1` (so `s` steps
with `s = min (pos-1).toNat length`, and for `pos = -1` the loop body
never runs since `count < -2` is false), returns unchanged when `temp` or
`temp->next` is NULL, and otherwise unlinks and frees `temp->next` (the
entry at index `s+1`). -/
def dw1000_remove_extension_callbacks (chain : List Nat) (id : Nat) : List Nat :=
  let pos := dw1000_find_extension_callbacks_position chain id
  if pos = 0 then chain.drop 1
  else
    let s := min (pos - 1).toNat chain.length
    if chain.drop (s + 1) = [] then chain
    else chain.take (s + 1) ++ chain.drop (s + 2)

/-- Embedding of the SPI command header built by `dw1000_read`
(op = 0) and `dw1000_write` (op = 1) (src/dw1000/src/dw1000_dev.c lines
58-81 and 94-118): `subindex = (subaddress != 0)`,
`extended = (subaddress > 128)`, byte 0 is
`operation << 7 | subindex << 6 | reg`, byte 1 is
`extended << 7 | (uint8_t)subaddress`, byte 2 is
`(uint8_t)(subaddress >> 7)`; the header length is 1, 2 or 3 following
`cmd.subaddress ? (cmd.extended ? 3 : 2) : 1`. -/
def dw1000_spi_header (op reg subaddress : Nat) : List Nat :=
  let subindex : Nat := if subaddress ≠ 0 then 1 else 0
  let extended : Nat := if 128 < subaddress then 1 else 0
  let byte0 := (op <<< 7 ||| subindex <<< 6 ||| reg) % 256
  let byte1 := (extended <<< 7 ||| subaddress % 256) % 256
  let byte2 := (subaddress >>> 7) % 256
  if subaddress ≠ 0 then
    (if 128 < subaddress then [byte0, byte1, byte2] else [byte0, byte1])
  else [byte0]

/-- Command header emitted by `dw1000_read` (operation bit 0). -/
def dw1000_read_header (reg subaddress : Nat) : List Nat := dw1000_spi_header 0 reg subaddress

/-- Command header emitted by `dw1000_write` (operation bit 1). -/
def dw1000_write_header (reg subaddress : Nat) : List Nat := dw1000_spi_header 1 reg subaddress

/-- Range-scheduler instance: the fields of `dw1000_range_instance_t`
acted on by `dw1000_range_init` and `dw1000_range_reset_nodes`
(src/dw1000/src/dw1000_range.c); `sem` is the token count passed to
`os_sem_init` for the scheduler's counting semaphore. -/
structure RangeInstance where
  nnodes : Nat := 0
  idx : Nat := 0
  rng_idx_cnt : Nat := 0
  pp_idx_cnt : Nat := 0
  sem : Nat := 0
  started : Bool := false
deriving DecidableEq, Repr, Inhabited

/-- Embedding of the fresh-allocation path of `dw1000_range_init`
(src/dw1000/src/dw1000_range.c lines 249-294): counters zeroed and
`os_sem_init(&range->sem, range->nnodes)`. -/
def dw1000_range_init (nnodes : Nat) : RangeInstance :=
  { nnodes := nnodes, idx := 0, rng_idx_cnt := 0, pp_idx_cnt := 0,
    sem := nnodes, started := false }

/-- Embedding of `dw1000_range_reset_nodes`
(src/dw1000/src/dw1000_range.c lines 401-423): counters and `idx` reset,
`nnodes` replaced, and `os_sem_init(&range->sem, inst->rng->nframes/2)`
— the semaphore is re-initialized from the TWR ring size, not from
`nnodes`. -/
def dw1000_range_reset_nodes (rngNframes : Nat) (r : RangeInstance) (nnodes : Nat) :
    RangeInstance :=
  { r with
    idx := 0, nnodes := nnodes, rng_idx_cnt := 0, pp_idx_cnt := 0,
    sem := rngNframes / 2 }

/-- One extension-callback chain entry (`dw1000_extension_callbacks_t`):
its stable id and which of the five function references are non-NULL. -/
structure ExtCb where
  id : Nat := 0
  has_rx_complete : Bool := false
  has_tx_complete : Bool := false
  has_rx_timeout : Bool := false
  has_rx_error : Bool := false
  has_tx_error : Bool := false
deriving DecidableEq, Repr, Inhabited

/-- Engine-side record of which callback references the TWR engine
invoked, in order. -/
inductive EngineEvent where
  | rxCompleteExt
  | txCompleteExt
  | rxTimeoutExt
  | rxErrorExt
  | txErrorExt
  | rngComplete
  | txFinal
deriving DecidableEq, Repr

/-- The transmit-side device programming performed by a TWR branch:
`dw1000_write_tx`/`dw1000_write_tx_fctrl` payload and length,
`dw1000_set_wait4resp`, `dw1000_set_delay_start`,
`dw1000_set_rx_timeout`. -/
structure TxConf where
  frame : TwrFrame := {}
  len : Nat := 0
  wait4resp : Bool := false
  delay_start : Option Nat := none
  rx_timeout : Option Nat := none
deriving DecidableEq, Repr, Inhabited

/-- TWR instance (`dw1000_rng_instance_t`): ring of `nframes` slots, the
wrapping 16-bit `idx`, the exchange semaphore token count, and the
delayed-start control record. -/
structure RngInstance where
  nframes : Nat := 0
  idx : Nat := 0
  frames : List TwrFrame := []
  sem : Nat := 0
  delay_start_enabled : Bool := false
  delay : Nat := 0
deriving DecidableEq, Repr, Inhabited

/-- Device handle slice used by the TWR engine (`dw1000_dev_instance_t`):
received frame metadata, configuration, the TWR sub-instance, the
extension chain viewed from the current `extension_cb` cursor (the head
of the list is the entry the cursor points at), the engine's registered
completion/final callback pointers, the invocation trace, and the last
programmed TX configuration. -/
structure DevInstance where
  fctrl : Nat := 0
  frame_len : Nat := 0
  my_short_address : Nat := 0
  tx_antenna_delay : Nat := 0
  rx_timeout_period : Nat := 0
  tx_holdoff_delay : Nat := 0
  rng : RngInstance := {}
  extChain : List ExtCb := []
  has_rng_complete : Bool := false
  has_rng_tx_final : Bool := false
  events : List EngineEvent := []
  txConf : TxConf := {}
deriving DecidableEq, Repr, Inhabited

/-- Environment of one RX-complete interrupt: the received frame content
delivered by `dw1000_read_rx`, the device timestamps, and whether the
hardware rejects the next `start_tx`/`restart_rx`. -/
structure RxEnv where
  rxFrame : TwrFrame := {}
  rxtime : Nat := 0
  txtime_lo : Nat := 0
  rxtime_lo : Nat := 0
  startTxError : Bool := false
  startRxError : Bool := false
deriving DecidableEq, Repr, Inhabited

/-- Record that the engine invoked one of the registered callback
references. -/
def emit (inst : DevInstance) (e : EngineEvent) : DevInstance :=
  { inst with events := inst.events ++ [e] }

/-- One store through a `twr_frame_t*` pointer into the frame ring. -/
def storeFrame (fs : List TwrFrame) (slot : Nat) (g : TwrFrame → TwrFrame) : List TwrFrame :=
  fs.set slot (g (fs.getD slot {}))

/-- Effect of `dw1000_read_rx(inst, frame->array, 0,
sizeof(ieee_rng_request_frame_t))`: the request-frame prefix of the slot
is overwritten with the received bytes. -/
def copyRequestFields (rx old : TwrFrame) : TwrFrame :=
  { old with
    fctrl := rx.fctrl, seq_num := rx.seq_num, pan_id := rx.pan_id,
    dst_address := rx.dst_address, src_address := rx.src_address, code := rx.code }

/-- Effect of reading `sizeof(ieee_rng_response_frame_t)` bytes: the
request prefix plus the reception/transmission timestamps. -/
def copyResponseFields (rx old : TwrFrame) : TwrFrame :=
  { copyRequestFields rx old with
    reception_timestamp := rx.reception_timestamp,
    transmission_timestamp := rx.transmission_timestamp }

/-- Effect of reading `sizeof(twr_frame_final_t)` bytes: the response
fields plus the request/response timestamps. -/
def copyFinalFields (rx old : TwrFrame) : TwrFrame :=
  { copyResponseFields rx old with
    request_timestamp := rx.request_timestamp,
    response_timestamp := rx.response_timestamp }

/-- Modelled from the spec: the on-wire struct sizes
(`sizeof(ieee_rng_request_frame_t)` and friends; the frame-type header is
not among the sources).  Only their relative order gates the
`frame_len` checks in the state machine. -/
def SZ_RNG_REQUEST : Nat := 12

/-- Modelled from the spec: `sizeof(ieee_rng_response_frame_t)`. -/
def SZ_RNG_RESPONSE : Nat := 28

/-- Modelled from the spec: `sizeof(twr_frame_final_t)`. -/
def SZ_TWR_FINAL : Nat := 36

/-- Modelled from the spec: `sizeof(twr_frame_t)` (extended frame). -/
def SZ_TWR_FRAME : Nat := 128

/-- The dispatch idiom of dw1000_rng.c: save `head = inst->extension_cb`,
invoke the head entry's callback reference when non-NULL (`extRun` is the
behavior of that external handler, `e` records which reference the
engine called), then restore `inst->extension_cb = head`. -/
def forwardExt (extRun : DevInstance → DevInstance) (sel : ExtCb → Bool)
    (e : EngineEvent) (inst : DevInstance) : DevInstance :=
  if inst.extChain ≠ [] then
    let head := inst.extChain
    let i := if sel inst.extChain.head! then extRun (emit inst e) else inst
    { i with extChain := head }
  else inst

/-- Embedding of the engine's `rng_rx_error_cb`
(src/dw1000/src/dw1000_rng.c lines 500-513): forward to the chain's
rx-error reference, then release the TWR semaphore when the frame was
TWR traffic. -/
def rng_rx_error_cb (extRun : DevInstance → DevInstance) (inst : DevInstance) : DevInstance :=
  let i1 := forwardExt extRun (fun c => c.has_rx_error) EngineEvent.rxErrorExt inst
  if i1.fctrl = FCNTL_IEEE_RANGE_16 then
    { i1 with rng := { i1.rng with sem := i1.rng.sem + 1 } }
  else i1

/-- Embedding of the restart-receiver exits of `rng_rx_complete_cb`:
`dw1000_restart_rx` with the saved RX context, invoking
`rng_rx_error_cb` when the hardware reports `start_rx_error`. -/
def restartRxOrError (extRun : DevInstance → DevInstance) (env : RxEnv)
    (inst : DevInstance) : DevInstance :=
  if env.startRxError then rng_rx_error_cb extRun inst else inst

/-- The delayed-response idiom: `request_timestamp + (tx_holdoff_delay
<< 16)` in uint64_t. -/
def responseTxDelay (env : RxEnv) (inst : DevInstance) : Nat :=
  u64 (env.rxtime + (inst.tx_holdoff_delay <<< 16))

/-- The on-wire response timestamp: `(response_tx_delay & 0xFFFFFFFE00)
+ tx_antenna_delay`. -/
def responseTimestamp (env : RxEnv) (inst : DevInstance) : Nat :=
  u64 ((responseTxDelay env inst &&& 0xFFFFFFFE00) + inst.tx_antenna_delay)

/-- Embedding of the three first-frame responder branches (`DWT_SS_TWR`,
`DWT_DS_TWR`, `DWT_DS_TWR_EXT` in src/dw1000/src/dw1000_rng.c; they
differ only in the reply code written).  `idx` is pre-incremented before
the `frame_len` guard; on a short frame the branch breaks with `idx`
already advanced.  On `start_tx_error` the branch only releases the TWR
semaphore. -/
def handleTwrFirst (env : RxEnv) (inst : DevInstance) (newCode : Nat) : DevInstance :=
  let idx1 := u16 (inst.rng.idx + 1)
  let slot := idx1 % inst.rng.nframes
  let rng1 := { inst.rng with idx := idx1 }
  if inst.frame_len < SZ_RNG_REQUEST then { inst with rng := rng1 }
  else
    let fs1 := storeFrame rng1.frames slot (fun old => copyRequestFields env.rxFrame old)
    let delay := responseTxDelay env inst
    let respTs := responseTimestamp env inst
    let fs2 := storeFrame fs1 slot (fun f =>
      { f with reception_timestamp := env.rxtime, transmission_timestamp := respTs })
    let fs3 := storeFrame fs2 slot (fun f => { f with dst_address := f.src_address })
    let fs4 := storeFrame fs3 slot (fun f =>
      { f with src_address := inst.my_short_address, code := newCode })
    let inst1 := { inst with
      rng := { rng1 with frames := fs4 }
      txConf := {
        frame := fs4.getD slot {}
        len := SZ_RNG_RESPONSE
        wait4resp := true
        delay_start := some delay
        rx_timeout := some inst.rx_timeout_period } }
    if env.startTxError then
      { inst1 with rng := { inst1.rng with sem := inst1.rng.sem + 1 } }
    else inst1

/-- Embedding of the `DWT_SS_TWR_T1` branch (initiator side of SS-TWR):
load the response, stamp the local request/response times from the
32-bit transmit/receive timestamps, swap addresses, send
`DWT_SS_TWR_FINAL`; on `start_tx_error` release the semaphore only;
finally forward rx-complete down the chain. -/
def handleSsTwrT1 (extRun : DevInstance → DevInstance) (env : RxEnv)
    (inst : DevInstance) : DevInstance :=
  let slot := inst.rng.idx % inst.rng.nframes
  if inst.frame_len < SZ_RNG_RESPONSE then inst
  else
    let fs1 := storeFrame inst.rng.frames slot (fun old => copyResponseFields env.rxFrame old)
    let fs2 := storeFrame fs1 slot (fun f =>
      { f with request_timestamp := u32 env.txtime_lo, response_timestamp := u32 env.rxtime_lo })
    let fs3 := storeFrame fs2 slot (fun f => { f with dst_address := f.src_address })
    let fs4 := storeFrame fs3 slot (fun f =>
      { f with src_address := inst.my_short_address, code := DWT_SS_TWR_FINAL })
    let inst1 := { inst with
      rng := { inst.rng with frames := fs4 }
      txConf := { inst.txConf with frame := fs4.getD slot {}, len := SZ_TWR_FINAL } }
    let inst2 :=
      if env.startTxError then
        { inst1 with rng := { inst1.rng with sem := inst1.rng.sem + 1 } }
      else inst1
    forwardExt extRun (fun c => c.has_rx_complete) EngineEvent.rxCompleteExt inst2

/-- Embedding of the `DWT_SS_TWR_FINAL` branch (responder receives the
final report): load final timestamps when long enough, release the
semaphore, invoke the user completion callback, forward rx-complete. -/
def handleSsTwrFinal (extRun : DevInstance → DevInstance) (env : RxEnv)
    (inst : DevInstance) : DevInstance :=
  let slot := inst.rng.idx % inst.rng.nframes
  let inst1 :=
    if SZ_TWR_FINAL ≤ inst.frame_len then
      { inst with rng := { inst.rng with
          frames := storeFrame inst.rng.frames slot (fun old => copyFinalFields env.rxFrame old) } }
    else inst
  let inst2 := { inst1 with rng := { inst1.rng with sem := inst1.rng.sem + 1 } }
  let inst3 := if inst2.has_rng_complete then emit inst2 EngineEvent.rngComplete else inst2
  forwardExt extRun (fun c => c.has_rx_complete) EngineEvent.rxCompleteExt inst3

/-- Embedding of the `DWT_DS_TWR_T1` branch (initiator advances to the
next ring slot, records both 32-bit timestamps in both slots, prepares
`DWT_DS_TWR_T2`); the stores follow the C statement order through the
aliased `frame`/`next_frame` pointers.  This is the one state-machine
branch whose `start_tx_error` path invokes the chain's tx-error
reference before releasing the semaphore. -/
def handleDsTwrT1 (extRun : DevInstance → DevInstance) (env : RxEnv)
    (inst : DevInstance) : DevInstance :=
  let slot0 := inst.rng.idx % inst.rng.nframes
  let idx1 := u16 (inst.rng.idx + 1)
  let slot1 := idx1 % inst.rng.nframes
  let rng1 := { inst.rng with idx := idx1 }
  if inst.frame_len < SZ_RNG_RESPONSE then { inst with rng := rng1 }
  else
    let fs1 := storeFrame rng1.frames slot0 (fun old => copyResponseFields env.rxFrame old)
    let fs2 := storeFrame fs1 slot1 (fun f => { f with request_timestamp := u32 env.txtime_lo })
    let fs3 := storeFrame fs2 slot0 (fun f => { f with request_timestamp := u32 env.txtime_lo })
    let fs4 := storeFrame fs3 slot1 (fun f => { f with response_timestamp := u32 env.rxtime_lo })
    let fs5 := storeFrame fs4 slot0 (fun f => { f with response_timestamp := u32 env.rxtime_lo })
    let src0 := (fs5.getD slot0 {}).src_address
    let seq0 := (fs5.getD slot0 {}).seq_num
    let delay := responseTxDelay env inst
    let respTs := responseTimestamp env inst
    let fs6 := storeFrame fs5 slot1 (fun f =>
      { f with
        dst_address := src0, src_address := inst.my_short_address,
        seq_num := u8 (seq0 + 1), code := DWT_DS_TWR_T2,
        reception_timestamp := env.rxtime, transmission_timestamp := respTs })
    let inst1 := { inst with
      rng := { rng1 with frames := fs6 }
      txConf := {
        frame := fs6.getD slot1 {}
        len := SZ_TWR_FINAL
        wait4resp := true
        delay_start := some delay
        rx_timeout := some inst.rx_timeout_period } }
    if env.startTxError then
      let instE := forwardExt extRun (fun c => c.has_tx_error) EngineEvent.txErrorExt inst1
      { instE with rng := { instE.rng with sem := instE.rng.sem + 1 } }
    else inst1

/-- Embedding of the `DWT_DS_TWR_T2` branch (responder copies the
received final timestamps into the previous slot, stamps its own 32-bit
times, sends `DWT_DS_TWR_FINAL`); `start_tx_error` releases the
semaphore only; the user completion callback runs afterwards. -/
def handleDsTwrT2 (env : RxEnv) (inst : DevInstance) : DevInstance :=
  let slot0 := inst.rng.idx % inst.rng.nframes
  let idx1 := u16 (inst.rng.idx + 1)
  let slot1 := idx1 % inst.rng.nframes
  let rng1 := { inst.rng with idx := idx1 }
  if inst.frame_len < SZ_TWR_FINAL then { inst with rng := rng1 }
  else
    let fs1 := storeFrame rng1.frames slot1 (fun old => copyFinalFields env.rxFrame old)
    let fs2 := storeFrame fs1 slot0 (fun f =>
      { f with request_timestamp := (fs1.getD slot1 {}).request_timestamp })
    let fs3 := storeFrame fs2 slot0 (fun f =>
      { f with response_timestamp := (fs2.getD slot1 {}).response_timestamp })
    let fs4 := storeFrame fs3 slot1 (fun f =>
      { f with request_timestamp := u32 env.txtime_lo, response_timestamp := u32 env.rxtime_lo })
    let fs5 := storeFrame fs4 slot1 (fun f => { f with dst_address := f.src_address })
    let fs6 := storeFrame fs5 slot1 (fun f =>
      { f with src_address := inst.my_short_address, code := DWT_DS_TWR_FINAL })
    let inst1 := { inst with
      rng := { rng1 with frames := fs6 }
      txConf := { inst.txConf with frame := fs6.getD slot1 {}, len := SZ_TWR_FINAL } }
    let inst2 :=
      if env.startTxError then
        { inst1 with rng := { inst1.rng with sem := inst1.rng.sem + 1 } }
      else inst1
    if inst2.has_rng_complete then emit inst2 EngineEvent.rngComplete else inst2

/-- Embedding of the `DWT_DS_TWR_FINAL` branch (initiator receives the
final report): load it when long enough, forward rx-complete down the
chain, release the semaphore, invoke the user completion callback. -/
def handleDsTwrFinal (extRun : DevInstance → DevInstance) (env : RxEnv)
    (inst : DevInstance) : DevInstance :=
  let slot := inst.rng.idx % inst.rng.nframes
  let inst1 :=
    if SZ_TWR_FINAL ≤ inst.frame_len then
      { inst with rng := { inst.rng with
          frames := storeFrame inst.rng.frames slot (fun old => copyFinalFields env.rxFrame old) } }
    else inst
  let inst2 := forwardExt extRun (fun c => c.has_rx_complete) EngineEvent.rxCompleteExt inst1
  let inst3 := { inst2 with rng := { inst2.rng with sem := inst2.rng.sem + 1 } }
  if inst3.has_rng_complete then emit inst3 EngineEvent.rngComplete else inst3

/-- Embedding of the `DWT_DS_TWR_EXT_T1` branch: as `DWT_DS_TWR_T1` but
with the extended frame length, the `rng_tx_final_cb` hook invoked
before the transmit (its extended-payload stores are outside the
modelled fields), and a `start_tx_error` path that only releases the
semaphore. -/
def handleDsTwrExtT1 (env : RxEnv) (inst : DevInstance) : DevInstance :=
  let slot0 := inst.rng.idx % inst.rng.nframes
  let idx1 := u16 (inst.rng.idx + 1)
  let slot1 := idx1 % inst.rng.nframes
  let rng1 := { inst.rng with idx := idx1 }
  if inst.frame_len < SZ_RNG_RESPONSE then { inst with rng := rng1 }
  else
    let fs1 := storeFrame rng1.frames slot0 (fun old => copyResponseFields env.rxFrame old)
    let fs2 := storeFrame fs1 slot1 (fun f => { f with request_timestamp := u32 env.txtime_lo })
    let fs3 := storeFrame fs2 slot0 (fun f => { f with request_timestamp := u32 env.txtime_lo })
    let fs4 := storeFrame fs3 slot1 (fun f => { f with response_timestamp := u32 env.rxtime_lo })
    let fs5 := storeFrame fs4 slot0 (fun f => { f with response_timestamp := u32 env.rxtime_lo })
    let src0 := (fs5.getD slot0 {}).src_address
    let seq0 := (fs5.getD slot0 {}).seq_num
    let delay := responseTxDelay env inst
    let respTs := responseTimestamp env inst
    let fs6 := storeFrame fs5 slot1 (fun f =>
      { f with
        dst_address := src0, src_address := inst.my_short_address,
        seq_num := u8 (seq0 + 1), code := DWT_DS_TWR_EXT_T2,
        reception_timestamp := env.rxtime, transmission_timestamp := respTs })
    let inst1 := { inst with rng := { rng1 with frames := fs6 } }
    let inst2 := if inst1.has_rng_tx_final then emit inst1 EngineEvent.txFinal else inst1
    let inst3 := { inst2 with
      txConf := {
        frame := fs6.getD slot1 {}
        len := SZ_TWR_FRAME
        wait4resp := true
        delay_start := some delay
        rx_timeout := some inst.rx_timeout_period } }
    if env.startTxError then
      { inst3 with rng := { inst3.rng with sem := inst3.rng.sem + 1 } }
    else inst3

/-- Embedding of the `DWT_DS_TWR_EXT_T2` branch: as `DWT_DS_TWR_T2` but
with the extended frame length and the `rng_tx_final_cb` hook before the
transmit. -/
def handleDsTwrExtT2 (env : RxEnv) (inst : DevInstance) : DevInstance :=
  let slot0 := inst.rng.idx % inst.rng.nframes
  let idx1 := u16 (inst.rng.idx + 1)
  let slot1 := idx1 % inst.rng.nframes
  let rng1 := { inst.rng with idx := idx1 }
  if inst.frame_len < SZ_TWR_FRAME then { inst with rng := rng1 }
  else
    let fs1 := storeFrame rng1.frames slot1 (fun old => copyFinalFields env.rxFrame old)
    let fs2 := storeFrame fs1 slot0 (fun f =>
      { f with request_timestamp := (fs1.getD slot1 {}).request_timestamp })
    let fs3 := storeFrame fs2 slot0 (fun f =>
      { f with response_timestamp := (fs2.getD slot1 {}).response_timestamp })
    let fs4 := storeFrame fs3 slot1 (fun f =>
      { f with request_timestamp := u32 env.txtime_lo, response_timestamp := u32 env.rxtime_lo })
    let fs5 := storeFrame fs4 slot1 (fun f => { f with dst_address := f.src_address })
    let fs6 := storeFrame fs5 slot1 (fun f =>
      { f with src_address := inst.my_short_address, code := DWT_DS_TWR_EXT_FINAL })
    let inst1 := { inst with rng := { rng1 with frames := fs6 } }
    let inst2 := if inst1.has_rng_tx_final then emit inst1 EngineEvent.txFinal else inst1
    let inst3 := { inst2 with
      txConf := { inst.txConf with frame := fs6.getD slot1 {}, len := SZ_TWR_FRAME } }
    let inst4 :=
      if env.startTxError then
        { inst3 with rng := { inst3.rng with sem := inst3.rng.sem + 1 } }
      else inst3
    if inst4.has_rng_complete then emit inst4 EngineEvent.rngComplete else inst4

/-- Embedding of the `DWT_DS_TWR_EXT_FINAL` branch: load the extended
final frame when long enough, release the semaphore, invoke the user
completion callback, then forward rx-complete down the chain. -/
def handleDsTwrExtFinal (extRun : DevInstance → DevInstance) (env : RxEnv)
    (inst : DevInstance) : DevInstance :=
  let slot := inst.rng.idx % inst.rng.nframes
  let inst1 :=
    if SZ_TWR_FRAME ≤ inst.frame_len then
      { inst with rng := { inst.rng with
          frames := storeFrame inst.rng.frames slot (fun old => copyFinalFields env.rxFrame old) } }
    else inst
  let inst2 := { inst1 with rng := { inst1.rng with sem := inst1.rng.sem + 1 } }
  let inst3 := if inst2.has_rng_complete then emit inst2 EngineEvent.rngComplete else inst2
  forwardExt extRun (fun c => c.has_rx_complete) EngineEvent.rxCompleteExt inst3

/-- The TWR code switch of `rng_rx_complete_cb` (the outer GCC case
ranges reach only the `_FINAL` members; codes outside all three ranges
fall to the default arm, which forwards rx-complete down the chain). -/
def rng_rx_dispatch (extRun : DevInstance → DevInstance) (env : RxEnv)
    (inst : DevInstance) (code : Nat) : DevInstance :=
  if DWT_SS_TWR ≤ code ∧ code ≤ DWT_SS_TWR_FINAL then
    if code = DWT_SS_TWR then handleTwrFirst env inst DWT_SS_TWR_T1
    else if code = DWT_SS_TWR_T1 then handleSsTwrT1 extRun env inst
    else if code = DWT_SS_TWR_FINAL then handleSsTwrFinal extRun env inst
    else inst
  else if DWT_DS_TWR ≤ code ∧ code ≤ DWT_DS_TWR_FINAL then
    if code = DWT_DS_TWR then handleTwrFirst env inst DWT_DS_TWR_T1
    else if code = DWT_DS_TWR_T1 then handleDsTwrT1 extRun env inst
    else if code = DWT_DS_TWR_T2 then handleDsTwrT2 env inst
    else if code = DWT_DS_TWR_FINAL then handleDsTwrFinal extRun env inst
    else inst
  else if DWT_DS_TWR_EXT ≤ code ∧ code ≤ DWT_DS_TWR_EXT_FINAL then
    if code = DWT_DS_TWR_EXT then handleTwrFirst env inst DWT_DS_TWR_EXT_T1
    else if code = DWT_DS_TWR_EXT_T1 then handleDsTwrExtT1 env inst
    else if code = DWT_DS_TWR_EXT_T2 then handleDsTwrExtT2 env inst
    else if code = DWT_DS_TWR_EXT_FINAL then handleDsTwrExtFinal extRun env inst
    else inst
  else
    forwardExt extRun (fun c => c.has_rx_complete) EngineEvent.rxCompleteExt inst

/-- Embedding of `rng_rx_complete_cb` (src/dw1000/src/dw1000_rng.c lines
521-958).  For TWR traffic (`fctrl == FCNTL_IEEE_RANGE_16`) the code and
destination address are read from the received frame, frames for other
destinations restart the receiver, and the code switch runs.  Otherwise
the event is forwarded to the extension chain when one is installed
(saving and restoring the `extension_cb` head around the call), or the
receiver is restarted.  `extRun` is the behavior of whatever external
handler the invoked entry points at. -/
def rng_rx_complete_cb (extRun : DevInstance → DevInstance) (env : RxEnv)
    (inst : DevInstance) : DevInstance :=
  if inst.fctrl = FCNTL_IEEE_RANGE_16 then
    let code := env.rxFrame.code
    let dst_address := env.rxFrame.dst_address
    if dst_address ≠ inst.my_short_address then restartRxOrError extRun env inst
    else rng_rx_dispatch extRun env inst code
  else if inst.extChain ≠ [] then
    forwardExt extRun (fun c => c.has_rx_complete) EngineEvent.rxCompleteExt inst
  else restartRxOrError extRun env inst

/-- Embedding of `dw1000_rng_init` (src/dw1000/src/dw1000_rng.c lines
89-119) on a fresh instance: ring of `nframes` slots,
`os_sem_init(&rng->sem, 1)`, delayed start disabled, `idx = 0xFFFF`, the
engine callbacks installed (`rng_complete_cb` set to 0,
`rng_tx_final_cb` set). -/
def dw1000_rng_init (inst : DevInstance) (nframes : Nat) : DevInstance :=
  { inst with
    rng := {
      nframes := nframes
      idx := 0xFFFF
      frames := List.replicate nframes {}
      sem := 1
      delay_start_enabled := false
      delay := 0 }
    has_rng_complete := false
    has_rng_tx_final := true }

/-- Embedding of `dw1000_rng_request` (src/dw1000/src/dw1000_rng.c lines
196-233) up to the final blocking wait: pend on the TWR semaphore (one
token consumed; suspension is a scheduler concern outside this
sequential model), pre-increment the 16-bit `idx`, fill the slot
`idx % nframes`, program the transmit, and on `start_tx_error` invoke
the chain's tx-error reference and release the semaphore.  The trailing
pend/release pair that waits for the completion callbacks is not
modelled. -/
def dw1000_rng_request (extRun : DevInstance → DevInstance) (env : RxEnv)
    (inst : DevInstance) (dst_address code : Nat) : DevInstance :=
  let rng0 := { inst.rng with sem := inst.rng.sem - 1 }
  let idx1 := u16 (rng0.idx + 1)
  let slot := idx1 % rng0.nframes
  let rng1 := { rng0 with idx := idx1 }
  let fs1 := storeFrame rng1.frames slot (fun f =>
    { f with
      seq_num := u8 (f.seq_num + 1), code := code,
      src_address := inst.my_short_address, dst_address := dst_address })
  let inst1 := { inst with
    rng := { rng1 with frames := fs1 }
    txConf := {
      frame := fs1.getD slot {}
      len := SZ_RNG_REQUEST
      wait4resp := true
      delay_start := if rng1.delay_start_enabled then some rng1.delay else none
      rx_timeout := some inst.rx_timeout_period } }
  if env.startTxError then
    let instE := forwardExt extRun (fun c => c.has_tx_error) EngineEvent.txErrorExt inst1
    { instE with rng := { instE.rng with sem := instE.rng.sem + 1 } }
  else inst1

/-- SPI baudrate state of the handle: `dw1000_dev_config` selects the low
baud before every probe and raises to the high baud on success (the
numeric MYNEWT_VAL baudrates are immaterial to the claims). -/
inductive Baud where
  | low
  | high
deriving DecidableEq, Repr, Inhabited

/-- Return value of `dw1000_dev_config` (the os_error codes OS_OK and
OS_TIMEOUT from the missing `os/os.h`). -/
inductive OsRet where
  | ok
  | timeout
deriving DecidableEq, Repr

/-- Device-handle slice acted on by `dw1000_dev_config`; `attempts`,
`wakeups` and `probe_bauds` are ghost instrumentation counting probe
reads, intervening `dw1000_dev_wakeup` calls, and the baud active at each
probe. -/
structure CfgState where
  baud : Baud := Baud.low
  device_id : Nat := 0
  initialized : Bool := false
  timestamp : Nat := 0
  attempts : Nat := 0
  wakeups : Nat := 0
  probe_bauds : List Baud := []
deriving DecidableEq, Repr, Inhabited

/-- Probe environment of `dw1000_dev_config`: the DEVICE_ID value the
k-th probe read returns, and the 40-bit SYS_TIME value. -/
structure CfgEnv where
  devid : Nat → Nat
  sys_time : Nat

/-- Embedding of the `retry:` loop of `dw1000_dev_config`
(src/dw1000/src/dw1000_dev.c lines 230-270): configure low-baud SPI,
reset, probe DEVICE_ID, set `status.initialized` to the comparison with
`DWT_DEVICE_ID`; while not initialized and `--timeout` is nonzero, run
`dw1000_dev_wakeup` and retry.  After the loop: OS_TIMEOUT when still
uninitialized, otherwise load SYS_TIME, raise the baudrate and return
OS_OK. -/
def dev_config_loop (env : CfgEnv) (st : CfgState) (timeout : Nat) : CfgState × OsRet :=
  let id := env.devid st.attempts
  let st1 := { st with
    baud := Baud.low
    probe_bauds := st.probe_bauds ++ [Baud.low]
    attempts := st.attempts + 1
    device_id := id
    initialized := id == DWT_DEVICE_ID }
  if h : st1.initialized = false ∧ timeout - 1 ≠ 0 then
    dev_config_loop env { st1 with wakeups := st1.wakeups + 1 } (timeout - 1)
  else if st1.initialized = false then (st1, OsRet.timeout)
  else ({ st1 with timestamp := env.sys_time, baud := Baud.high }, OsRet.ok)
termination_by timeout
decreasing_by omega

/-- Embedding of `dw1000_dev_config`: the retry loop entered with
`timeout = 3` (ghost counters cleared). -/
def dw1000_dev_config (env : CfgEnv) (st : CfgState) : CfgState × OsRet :=
  dev_config_loop env { st with attempts := 0, wakeups := 0, probe_bauds := [] } 3

/-- Modelled from the spec: SYS_STATUS mask of the SLP2INIT bit
(`dw1000_regs.h` is not among the sources; only which bits the masks
cover matters). -/
def SYS_STATUS_SLP2INIT : Nat := 0x00800000

/-- Modelled from the spec: SYS_STATUS mask covering the receive-error
bits cleared on wakeup. -/
def SYS_STATUS_ALL_RX_ERR : Nat := 0x24059000

/-- Modelled from the spec: AON_CTRL SAVE strobe value. -/
def AON_CTRL_SAVE : Nat := 0x02

/-- Device-resident registers touched by the sleep/wake sequence. -/
structure SleepRegs where
  sys_status : Nat := 0
  lde_rxantd : Nat := 0
  tx_antd : Nat := 0
  aon_ctrl : Nat := 0
deriving DecidableEq, Repr, Inhabited

/-- Device-handle slice acted on by `dw1000_dev_enter_sleep` and
`dw1000_dev_wakeup`: the two antenna-delay fields, the `sleeping` status
bit, and the device registers. -/
structure SleepDev where
  rx_antenna_delay : Nat := 0
  tx_antenna_delay : Nat := 0
  sleeping : Bool := false
  regs : SleepRegs := {}
deriving DecidableEq, Repr, Inhabited

/-- Modelled from the spec: hardware semantics of a SYS_STATUS register
write — the register is write-1-to-clear, so the bits set in the written
mask are cleared (32-bit register). -/
def sysStatusWrite (s mask : Nat) : Nat := s &&& ((2 ^ 32 - 1) ^^^ mask)

/-- Embedding of `dw1000_dev_enter_sleep` (src/dw1000/src/dw1000_dev.c
lines 334-350): upload the AON array (AON_CTRL cleared then strobed with
SAVE) and set `status.sleeping`; the mutex pend/release bracket is a
no-op in this single-threaded model.  The antenna-delay fields of the
handle are not touched. -/
def dw1000_dev_enter_sleep (d : SleepDev) : SleepDev :=
  let d1 := { d with regs := { d.regs with aon_ctrl := 0 } }
  let d2 := { d1 with regs := { d1.regs with aon_ctrl := AON_CTRL_SAVE } }
  { d2 with sleeping := true }

/-- Embedding of the wakeup poll loop of `dw1000_dev_wakeup`: read
DEVICE_ID, and while it differs from 0xDECA0130 and `--timeout` is
nonzero, issue the hardware wake signal and read again; `env k` is the
value returned by the k-th read.  Returns the final DEVICE_ID value. -/
def wakeup_poll (env : Nat → Nat) (k timeout : Nat) : Nat :=
  let devid := env k
  if h : devid ≠ DWT_DEVICE_ID ∧ timeout - 1 ≠ 0 then wakeup_poll env (k + 1) (timeout - 1)
  else devid
termination_by timeout
decreasing_by omega

/-- Embedding of `dw1000_dev_wakeup` (src/dw1000/src/dw1000_dev.c lines
358-387): poll DEVICE_ID with `timeout = 5`, set `status.sleeping` from
the final comparison, write the SLP2INIT and ALL_RX_ERR masks to
SYS_STATUS (write-1-to-clear), then re-apply both antenna delays to the
device registers (`dw1000_phy_set_rx_antennadelay` /
`dw1000_phy_set_tx_antennadelay`, modelled from the spec as stores of
the handle fields into the corresponding registers). -/
def dw1000_dev_wakeup (env : Nat → Nat) (d : SleepDev) : SleepDev :=
  let devid := wakeup_poll env 0 5
  let d1 := { d with sleeping := devid != DWT_DEVICE_ID }
  let d2 := { d1 with regs := { d1.regs with
    sys_status := sysStatusWrite d1.regs.sys_status SYS_STATUS_SLP2INIT } }
  let d3 := { d2 with regs := { d2.regs with
    sys_status := sysStatusWrite d2.regs.sys_status SYS_STATUS_ALL_RX_ERR } }
  let d4 := { d3 with regs := { d3.regs with lde_rxantd := d3.rx_antenna_delay } }
  { d4 with regs := { d4.regs with tx_antd := d4.tx_antenna_delay } }

/-- E2 double-sided frame record A of spec section 8: T1R = 1000,
T1r = 500. -/
def frameE2A : TwrFrame :=
  { request_timestamp := 100, response_timestamp := 1100,
    reception_timestamp := 200, transmission_timestamp := 700 }

/-- E2 double-sided frame record B of spec section 8: T2R = 1200,
T2r = 500, carrying a DS-TWR code. -/
def frameE2B : TwrFrame :=
  { request_timestamp := 100, response_timestamp := 1300,
    reception_timestamp := 300, transmission_timestamp := 800, code := DWT_DS_TWR }

/-- E1 single-sided timestamps of spec section 8 (true ToF 500 ticks). -/
def frameE1 : TwrFrame :=
  { request_timestamp := 1000, reception_timestamp := 1500,
    transmission_timestamp := 2500, response_timestamp := 3000 }

/-- The E1 timestamps offset by 2^40 - 2800 and stored as 40-bit device
ticks: the response timestamp alone wraps past the 40-bit boundary. -/
def frameE1wrapped : TwrFrame :=
  { request_timestamp := 2 ^ 40 - 1800, reception_timestamp := 2 ^ 40 - 1300,
    transmission_timestamp := 2 ^ 40 - 300, response_timestamp := 200 }

/-- Next-frame record carrying a code in the SS-TWR range. -/
def frameSsCode : TwrFrame := { code := DWT_SS_TWR }

/-- Concrete device state: TWR frame control, a two-slot ring with the
semaphore held, and one extension entry with every callback reference
installed. -/
def instTwrErr : DevInstance :=
  { fctrl := FCNTL_IEEE_RANGE_16
    frame_len := 200
    my_short_address := 7
    rng := { nframes := 2, idx := 5, frames := [{}, {}], sem := 0 }
    extChain := [{
      id := 3
      has_rx_complete := true
      has_tx_complete := true
      has_rx_timeout := true
      has_rx_error := true
      has_tx_error := true }] }

/-- RX environment delivering a `DWT_SS_TWR` request addressed to the
device, with the hardware rejecting the queued response transmit. -/
def envSsTwrErr : RxEnv :=
  { rxFrame := { code := DWT_SS_TWR, dst_address := 7 }, startTxError := true }

/-- RX environment delivering a `DWT_DS_TWR_T1` response addressed to
the device, with the hardware rejecting the queued transmit. -/
def envDsT1Err : RxEnv :=
  { rxFrame := { code := DWT_DS_TWR_T1, dst_address := 7 }, startTxError := true }

/-- Concrete device state with a non-TWR frame control and one
extension entry with an rx-complete reference. -/
def instNonTwr : DevInstance :=
  { fctrl := 0x1234
    frame_len := 50
    rng := { nframes := 1, idx := 0, frames := [{}], sem := 1 }
    extChain := [{ id := 9, has_rx_complete := true }] }

/-- Probe environment whose second DEVICE_ID read returns the accepted
identifier. -/
def envCfgSecond : CfgEnv :=
  { devid := fun k => if k = 1 then 0xDECA0130 else 0, sys_time := 424242 }

/-- Wakeup poll environment whose first read already returns the
accepted identifier. -/
def envWakeOk : Nat → Nat := fun _ => 0xDECA0130

/-- Device state with the E6 antenna delays 0x4050 and 0x4060 applied. -/
def sleepDevEx : SleepDev :=
  { rx_antenna_delay := 0x4050, tx_antenna_delay := 0x4060,
    regs := { sys_status := 0xFFFFFFFF } }

/-! Helper lemmas shared by the claim theorems. -/

theorem u64sub_of_le (a b : Nat) (h1 : b ≤ a) (h2 : a < 2 ^ 64) : u64sub a b = a - b := by
  have hb : b < 2 ^ 64 := lt_of_le_of_lt h1 h2
  unfold u64sub
  rw [Nat.mod_eq_of_lt h2, Nat.mod_eq_of_lt hb,
    show a + (2 ^ 64 - b) = 2 ^ 64 + (a - b) by omega, Nat.add_mod_left]
  exact Nat.mod_eq_of_lt (by omega)

theorem toInt64_of_lt (x : Nat) (h : x < 2 ^ 63) : toInt64 x = (x : Int) := by
  have hx : x < 2 ^ 64 := lt_trans h (by norm_num)
  unfold toInt64
  rw [Nat.mod_eq_of_lt hx, if_pos h]

theorem spi_byte0_mod (op sx reg : Nat) (hop : op < 2) (hsx : sx < 2) (hreg : reg < 64) :
    (op <<< 7 ||| sx <<< 6 ||| reg) % 256 = op <<< 7 ||| sx <<< 6 ||| reg := by
  apply Nat.mod_eq_of_lt
  have h1 : op <<< 7 < 2 ^ 8 := by rw [Nat.shiftLeft_eq]; norm_num; omega
  have h2 : sx <<< 6 < 2 ^ 8 := by rw [Nat.shiftLeft_eq]; norm_num; omega
  have h3 : reg < 2 ^ 8 := by norm_num; omega
  have := Nat.or_lt_two_pow (Nat.or_lt_two_pow h1 h2) h3
  norm_num at this
  exact this

theorem spi_byte1_small (sub : Nat) (h : sub < 129) :
    (0 <<< 7 ||| sub % 256) % 256 = sub := by
  rw [Nat.zero_shiftLeft, Nat.zero_or, Nat.mod_eq_of_lt (show sub < 256 by omega),
    Nat.mod_eq_of_lt (show sub < 256 by omega)]

theorem spi_byte1_ext (sub : Nat) :
    (1 <<< 7 ||| sub % 256) % 256 = 1 <<< 7 ||| (sub &&& 127) := by
  have h1 : (1 : Nat) <<< 7 < 2 ^ 8 := by decide
  have h2 : sub % 256 < 2 ^ 8 := by rw [show (2 : Nat) ^ 8 = 256 from rfl]; omega
  rw [Nat.mod_eq_of_lt (by simpa using Nat.or_lt_two_pow h1 h2)]
  apply Nat.eq_of_testBit_eq
  intro i
  rw [show (256 : Nat) = 2 ^ 8 from rfl, show (127 : Nat) = 2 ^ 7 - 1 from rfl,
    show (1 <<< 7 : Nat) = 2 ^ 7 from rfl]
  simp only [Nat.testBit_or, Nat.testBit_and, Nat.testBit_mod_two_pow,
    Nat.testBit_two_pow_sub_one, Nat.testBit_two_pow]
  by_cases h7 : 7 = i
  · subst h7; simp
  · by_cases h8 : i < 8
    · have hi7 : i < 7 := by omega
      simp [h7, h8, hi7]
    · have hi7 : ¬ i < 7 := by omega
      simp [h7, h8, hi7]

theorem spi_byte2_mod (sub : Nat) (h : sub ≤ 32767) : (sub >>> 7) % 256 = sub >>> 7 := by
  apply Nat.mod_eq_of_lt
  rw [Nat.shiftRight_eq_div_pow]
  omega

/-- C3: code bug in `dw1000_remove_extension_callbacks` — on the chain
[1, 2] with the absent id 3 no entry matches (`find_position` returns
-1), yet the entry at position 1 is unlinked and freed, leaving [1];
the no-match case is not a no-op. -/
theorem dw1000_remove_extension_callbacks_missing_id_bug :
    dw1000_find_extension_callbacks_position [1, 2] 3 = -1 ∧
    dw1000_remove_extension_callbacks [1, 2] 3 = [1] ∧
    dw1000_remove_extension_callbacks [1, 2] 3 ≠ [1, 2] := by
  refine ⟨?_, ?_, ?_⟩ <;> decide

/-- C5 counterexample: with a 4-slot TWR ring and 3 peer nodes,
`dw1000_range_reset_nodes` re-initializes the scheduler semaphore to
nframes/2 = 2 rather than to nnodes = 3. -/
theorem dw1000_range_reset_sem_counterexample :
    (dw1000_range_reset_nodes 4 (dw1000_range_init 3) 3).sem = 2 ∧ (2 : Nat) ≠ 3 := by
  refine ⟨?_, ?_⟩ <;> decide

/-- C5 (amended): `dw1000_range_init` sizes the scheduler's counting
semaphore to nnodes, but `dw1000_range_reset_nodes` sizes it to
`rng->nframes / 2`. -/
theorem dw1000_range_sem_capacity (nnodes rngNframes n2 : Nat) (r : RangeInstance) :
    (dw1000_range_init nnodes).sem = nnodes ∧
    (dw1000_range_reset_nodes rngNframes r n2).sem = rngNframes / 2 :=
  ⟨rfl, rfl⟩

/-- C4 counterexample: at subaddress 128 the emitted 2-byte read header
is [0x40, 0x80] — byte 1 is `(uint8_t)128 = 0x80`, not
`ext<<7 | (sub & 0x7F) = 0` as the claim states for sub ≤ 128 (and
likewise for the write header). -/
theorem dw1000_spi_header_sub128_counterexample :
    dw1000_read_header 0 128 = [64, 128] ∧
    dw1000_read_header 0 128 ≠ [0 <<< 7 ||| 1 <<< 6 ||| 0, 0 <<< 7 ||| (128 &&& 0x7F)] ∧
    dw1000_write_header 0 128 ≠ [1 <<< 7 ||| 1 <<< 6 ||| 0, 0 <<< 7 ||| (128 &&& 0x7F)] := by
  refine ⟨?_, ?_, ?_⟩ <;> decide

/-- C4 (amended): for op ∈ {read = 0, write = 1}, reg ≤ 0x3F and
sub ≤ 0x7FFF the emitted header is: 1 byte `op<<7|reg` when sub = 0;
2 bytes with byte1 = sub when 0 < sub < 128; 2 bytes with byte1 = 0x80
when sub = 128 (the claim's `ext<<7 | (sub & 0x7F)` with ext = 0 fails
exactly here); 3 bytes with the ext bit set in byte1 and
byte2 = sub >> 7 when sub > 128. -/
theorem dw1000_spi_header_encoding (op reg sub : Nat)
    (hop : op < 2) (hreg : reg ≤ 0x3F) (hsub : sub ≤ 0x7FFF) :
    (sub = 0 → dw1000_spi_header op reg sub = [op <<< 7 ||| 0 <<< 6 ||| reg]) ∧
    (0 < sub → sub < 128 → dw1000_spi_header op reg sub =
      [op <<< 7 ||| 1 <<< 6 ||| reg, sub]) ∧
    (sub = 128 → dw1000_spi_header op reg sub = [op <<< 7 ||| 1 <<< 6 ||| reg, 128]) ∧
    (128 < sub → dw1000_spi_header op reg sub =
      [op <<< 7 ||| 1 <<< 6 ||| reg, 1 <<< 7 ||| (sub &&& 0x7F), sub >>> 7]) := by
  refine ⟨?_, ?_, ?_, ?_⟩
  · intro h
    subst h
    simp only [dw1000_spi_header]
    rw [if_neg (show ¬ (0 : Nat) ≠ 0 by omega), if_neg (show ¬ (0 : Nat) ≠ 0 by omega)]
    rw [spi_byte0_mod op 0 reg hop (by omega) (by omega)]
  · intro h1 h2
    have hne : sub ≠ 0 := by omega
    have hnx : ¬ 128 < sub := by omega
    simp only [dw1000_spi_header]
    rw [if_pos hne, if_pos hne, if_neg hnx, if_neg hnx]
    rw [spi_byte0_mod op 1 reg hop (by omega) (by omega), spi_byte1_small sub (by omega)]
  · intro h
    subst h
    simp only [dw1000_spi_header]
    rw [if_pos (show (128 : Nat) ≠ 0 by omega), if_pos (show (128 : Nat) ≠ 0 by omega),
      if_neg (show ¬ (128 : Nat) < 128 by omega), if_neg (show ¬ (128 : Nat) < 128 by omega)]
    rw [spi_byte0_mod op 1 reg hop (by omega) (by omega), spi_byte1_small 128 (by omega)]
  · intro h1
    have hne : sub ≠ 0 := by omega
    simp only [dw1000_spi_header]
    rw [if_pos hne, if_pos hne, if_pos h1, if_pos h1]
    rw [spi_byte0_mod op 1 reg hop (by omega) (by omega), spi_byte1_ext sub,
      spi_byte2_mod sub (by omega)]

/-- C4 witness: the amended encoding at read, reg 0x20, sub 0x1234. -/
theorem dw1000_spi_header_encoding_witness :
    dw1000_spi_header 0 0x20 0x1234 =
      [0 <<< 7 ||| 1 <<< 6 ||| 0x20, 1 <<< 7 ||| (0x1234 &&& 0x7F), 0x1234 >>> 7] :=
  (dw1000_spi_header_encoding 0 0x20 0x1234 (by omega) (by omega) (by omega)).2.2.2
    (by omega)

/-- C2 (code bug): the ToF subtractions carry no 40-bit mask.  With the
E1 timestamps the SS formula yields 500 ticks, but after offsetting all
four timestamps by 2^40 - 2800 (stored modulo 2^40, so only the
response timestamp wraps past the 40-bit boundary) the uint64
differences wrap modulo 2^64 and the computed ToF changes. -/
theorem dw1000_rng_twr_to_tof_wrap_bug :
    dw1000_rng_twr_to_tof frameE1 frameSsCode = 500 ∧
    dw1000_rng_twr_to_tof frameE1wrapped frameSsCode =
      ((2 ^ 64 - 2 ^ 40 + 1000 : Nat) : ℚ) / 2 ∧
    dw1000_rng_twr_to_tof frameE1wrapped frameSsCode ≠ 500 := by
  refine ⟨?_, ?_, ?_⟩ <;>
    norm_num [dw1000_rng_twr_to_tof, frameE1, frameE1wrapped, frameSsCode, u64sub,
      DWT_SS_TWR, DWT_SS_TWR_END]

/-- C1: `dw1000_rng_twr_to_tof` returns the single-sided formula
((A.resp - A.req) - (A.tx - A.rx)) / 2 when the next frame's code lies
in the SS-TWR range, and the double-sided formula
(T1R·T2R - T1r·T2r) / (T1R + T2R + T1r + T2r) when it lies in the
DS-TWR or DS-TWR-EXT range, for interval values on which the 64-bit
integer arithmetic does not wrap (each interval below 2^31 ticks). -/
theorem dw1000_rng_twr_to_tof_formula (A B : TwrFrame)
    (hA1 : A.request_timestamp ≤ A.response_timestamp)
    (hA2 : A.reception_timestamp ≤ A.transmission_timestamp)
    (hB1 : B.request_timestamp ≤ B.response_timestamp)
    (hB2 : B.reception_timestamp ≤ B.transmission_timestamp)
    (hA3 : A.response_timestamp < 2 ^ 64) (hA4 : A.transmission_timestamp < 2 ^ 64)
    (hB3 : B.response_timestamp < 2 ^ 64) (hB4 : B.transmission_timestamp < 2 ^ 64)
    (h1 : A.response_timestamp - A.request_timestamp < 2 ^ 31)
    (h2 : A.transmission_timestamp - A.reception_timestamp < 2 ^ 31)
    (h3 : B.response_timestamp - B.request_timestamp < 2 ^ 31)
    (h4 : B.transmission_timestamp - B.reception_timestamp < 2 ^ 31) :
    (DWT_SS_TWR ≤ B.code ∧ B.code ≤ DWT_SS_TWR_END →
      A.transmission_timestamp - A.reception_timestamp ≤
        A.response_timestamp - A.request_timestamp →
      dw1000_rng_twr_to_tof A B =
        (((A.response_timestamp - A.request_timestamp) -
          (A.transmission_timestamp - A.reception_timestamp) : Nat) : ℚ) / 2) ∧
    ((DWT_DS_TWR ≤ B.code ∧ B.code ≤ DWT_DS_TWR_END) ∨
      (DWT_DS_TWR_EXT ≤ B.code ∧ B.code ≤ DWT_DS_TWR_EXT_END) →
      (A.transmission_timestamp - A.reception_timestamp) *
        (B.transmission_timestamp - B.reception_timestamp) ≤
      (A.response_timestamp - A.request_timestamp) *
        (B.response_timestamp - B.request_timestamp) →
      dw1000_rng_twr_to_tof A B =
        ((((A.response_timestamp - A.request_timestamp) *
            (B.response_timestamp - B.request_timestamp) -
          (A.transmission_timestamp - A.reception_timestamp) *
            (B.transmission_timestamp - B.reception_timestamp) : Nat) : ℚ)) /
        (((A.response_timestamp - A.request_timestamp) +
          (B.response_timestamp - B.request_timestamp) +
          (A.transmission_timestamp - A.reception_timestamp) +
          (B.transmission_timestamp - B.reception_timestamp) : Nat) : ℚ)) := by
  have eA1 := u64sub_of_le _ _ hA1 hA3
  have eA2 := u64sub_of_le _ _ hA2 hA4
  have eB1 := u64sub_of_le _ _ hB1 hB3
  have eB2 := u64sub_of_le _ _ hB2 hB4
  constructor
  · intro hcode hle
    have ha64 : A.response_timestamp - A.request_timestamp < 2 ^ 64 :=
      lt_trans h1 (by norm_num)
    simp only [dw1000_rng_twr_to_tof]
    rw [if_pos hcode, eA1, eA2, u64sub_of_le _ _ hle ha64]
  · intro hcode hle
    have hnss : ¬ (DWT_SS_TWR ≤ B.code ∧ B.code ≤ DWT_SS_TWR_END) := by
      simp only [DWT_SS_TWR, DWT_SS_TWR_END, DWT_DS_TWR, DWT_DS_TWR_END,
        DWT_DS_TWR_EXT, DWT_DS_TWR_EXT_END] at hcode ⊢
      omega
    simp only [dw1000_rng_twr_to_tof]
    rw [if_neg hnss, if_pos hcode, eA1, eA2, eB1, eB2]
    have p1 : (A.response_timestamp - A.request_timestamp) *
        (B.response_timestamp - B.request_timestamp) < 2 ^ 62 :=
      lt_of_lt_of_le (Nat.mul_lt_mul'' h1 h3) (by norm_num)
    have hmul64 : (A.response_timestamp - A.request_timestamp) *
        (B.response_timestamp - B.request_timestamp) < 2 ^ 64 :=
      lt_trans p1 (by norm_num)
    rw [u64sub_of_le _ _ hle hmul64]
    have hsub63 : (A.response_timestamp - A.request_timestamp) *
        (B.response_timestamp - B.request_timestamp) -
        (A.transmission_timestamp - A.reception_timestamp) *
        (B.transmission_timestamp - B.reception_timestamp) < 2 ^ 63 :=
      lt_of_le_of_lt (Nat.sub_le _ _) (lt_trans p1 (by norm_num))
    have hsum63 : (A.response_timestamp - A.request_timestamp) +
        (B.response_timestamp - B.request_timestamp) +
        (A.transmission_timestamp - A.reception_timestamp) +
        (B.transmission_timestamp - B.reception_timestamp) < 2 ^ 63 := by
      norm_num at h1 h2 h3 h4 ⊢
      omega
    have hsum64 : (A.response_timestamp - A.request_timestamp) +
        (B.response_timestamp - B.request_timestamp) +
        (A.transmission_timestamp - A.reception_timestamp) +
        (B.transmission_timestamp - B.reception_timestamp) < 2 ^ 64 :=
      lt_trans hsum63 (by norm_num)
    rw [toInt64_of_lt _ hsub63, Nat.mod_eq_of_lt hsum64, toInt64_of_lt _ hsum63]
    push_cast
    ring

/-- C1 witness: at the E2 concrete values (T1R = 1000, T1r = 500,
T2R = 1200, T2r = 500, code DWT_DS_TWR) the double-sided formula gives
950000 / 3200 = 296.875 ticks. -/
theorem dw1000_rng_twr_to_tof_formula_witness :
    dw1000_rng_twr_to_tof frameE2A frameE2B = 2375 / 8 := by
  have h := (dw1000_rng_twr_to_tof_formula frameE2A frameE2B
    (by decide) (by decide) (by decide) (by decide)
    (by decide) (by decide) (by decide) (by decide)
    (by decide) (by decide) (by decide) (by decide)).2
    (Or.inl (by decide)) (by decide)
  rw [h]
  norm_num [frameE2A, frameE2B]

/-- C10: `dw1000_rng_init` sets idx to 0xFFFF, and the first
`dw1000_rng_request` pre-increments the 16-bit idx, wrapping it to 0, so
the first request after init uses frame slot 0 for every nframes ≥ 1. -/
theorem dw1000_rng_first_request_slot0
    (extRun : DevInstance → DevInstance) (env : RxEnv) (inst : DevInstance)
    (nframes dst code : Nat) (hn : 1 ≤ nframes) (htx : env.startTxError = false) :
    (dw1000_rng_init inst nframes).rng.idx = 0xFFFF ∧
    (dw1000_rng_request extRun env (dw1000_rng_init inst nframes) dst code).rng.idx = 0 ∧
    ∃ fr, (dw1000_rng_request extRun env (dw1000_rng_init inst nframes) dst code).rng.frames =
      ((dw1000_rng_init inst nframes).rng.frames).set 0 fr := by
  refine ⟨rfl, ?_, ?_⟩
  · simp [dw1000_rng_request, dw1000_rng_init, u16, htx]
  · simp only [dw1000_rng_request, dw1000_rng_init, u16, htx, Bool.false_eq_true,
      if_false, storeFrame]
    norm_num

/-- C10 witness: a 3-slot ring right after init serves the first request
from slot 0. -/
theorem dw1000_rng_first_request_slot0_witness :
    (dw1000_rng_init {} 3).rng.idx = 0xFFFF ∧
    (dw1000_rng_request (fun s => s) {} (dw1000_rng_init {} 3) 5 DWT_DS_TWR).rng.idx = 0 ∧
    ∃ fr, (dw1000_rng_request (fun s => s) {} (dw1000_rng_init {} 3) 5 DWT_DS_TWR).rng.frames =
      ((dw1000_rng_init {} 3).rng.frames).set 0 fr :=
  dw1000_rng_first_request_slot0 (fun s => s) {} {} 3 5 DWT_DS_TWR (by omega) rfl

/-- C8: `dw1000_dev_config` probes DEVICE_ID at the low SPI baud,
accepting exactly 0xDECA0130; it makes at most 3 probes with a wakeup
between consecutive probes; after 3 misses it returns OS_TIMEOUT with
`initialized = 0`; on the first accepted probe it loads the SYS_TIME
timestamp, raises the baudrate and returns OS_OK. -/
theorem dw1000_dev_config_probe (env : CfgEnv) (st : CfgState) :
    ((∀ k, k < 3 → env.devid k ≠ DWT_DEVICE_ID) →
      (dw1000_dev_config env st).2 = OsRet.timeout ∧
      (dw1000_dev_config env st).1.initialized = false ∧
      (dw1000_dev_config env st).1.attempts = 3 ∧
      (dw1000_dev_config env st).1.wakeups = 2 ∧
      (dw1000_dev_config env st).1.probe_bauds = List.replicate 3 Baud.low) ∧
    (∀ k, k < 3 → env.devid k = DWT_DEVICE_ID →
      (∀ j, j < k → env.devid j ≠ DWT_DEVICE_ID) →
      (dw1000_dev_config env st).2 = OsRet.ok ∧
      (dw1000_dev_config env st).1.initialized = true ∧
      (dw1000_dev_config env st).1.timestamp = env.sys_time ∧
      (dw1000_dev_config env st).1.baud = Baud.high ∧
      (dw1000_dev_config env st).1.attempts = k + 1 ∧
      (dw1000_dev_config env st).1.wakeups = k ∧
      (dw1000_dev_config env st).1.probe_bauds = List.replicate (k + 1) Baud.low) := by
  constructor
  · intro hmiss
    have h0 := hmiss 0 (by omega)
    have h1 := hmiss 1 (by omega)
    have h2 := hmiss 2 (by omega)
    simp only [dw1000_dev_config]
    rw [dev_config_loop]
    simp only [beq_eq_false_iff_ne, ne_eq, h0, not_false_eq_true, true_and]
    norm_num
    rw [dev_config_loop]
    simp only [beq_eq_false_iff_ne, ne_eq, h1, not_false_eq_true, true_and]
    norm_num
    rw [dev_config_loop]
    simp [h2, List.replicate]
  · intro k hk hhit hmiss
    interval_cases k
    · simp only [dw1000_dev_config]
      rw [dev_config_loop]
      simp [hhit, List.replicate]
    · have h0 := hmiss 0 (by omega)
      simp only [dw1000_dev_config]
      rw [dev_config_loop]
      simp only [beq_eq_false_iff_ne, ne_eq, h0, not_false_eq_true, true_and]
      norm_num
      rw [dev_config_loop]
      simp [hhit, List.replicate]
    · have h0 := hmiss 0 (by omega)
      have h1 := hmiss 1 (by omega)
      simp only [dw1000_dev_config]
      rw [dev_config_loop]
      simp only [beq_eq_false_iff_ne, ne_eq, h0, not_false_eq_true, true_and]
      norm_num
      rw [dev_config_loop]
      simp only [beq_eq_false_iff_ne, ne_eq, h1, not_false_eq_true, true_and]
      norm_num
      rw [dev_config_loop]
      simp [hhit, List.replicate]

/-- C8 witness: with the first probe missing and the second returning
0xDECA0130, config succeeds after 2 probes and 1 wakeup. -/
theorem dw1000_dev_config_probe_witness :
    (dw1000_dev_config envCfgSecond {}).2 = OsRet.ok ∧
    (dw1000_dev_config envCfgSecond {}).1.initialized = true ∧
    (dw1000_dev_config envCfgSecond {}).1.timestamp = envCfgSecond.sys_time ∧
    (dw1000_dev_config envCfgSecond {}).1.baud = Baud.high ∧
    (dw1000_dev_config envCfgSecond {}).1.attempts = 2 ∧
    (dw1000_dev_config envCfgSecond {}).1.wakeups = 1 ∧
    (dw1000_dev_config envCfgSecond {}).1.probe_bauds = List.replicate 2 Baud.low :=
  (dw1000_dev_config_probe envCfgSecond {}).2 1 (by omega)
    (by norm_num [envCfgSecond, DWT_DEVICE_ID])
    (by intro j hj; interval_cases j; norm_num [envCfgSecond, DWT_DEVICE_ID])

theorem and_not_mask (a m : Nat) (hm : m < 2 ^ 32) :
    (a &&& ((2 ^ 32 - 1) ^^^ m)) &&& m = 0 := by
  apply Nat.eq_of_testBit_eq
  intro i
  simp only [Nat.testBit_and, Nat.testBit_xor, Nat.testBit_two_pow_sub_one,
    Nat.zero_testBit]
  by_cases hb : m.testBit i
  · have hi : i < 32 := by
      by_contra hge
      have hlt : m < 2 ^ i :=
        lt_of_lt_of_le hm (Nat.pow_le_pow_right (by omega) (by omega))
      rw [Nat.testBit_lt_two_pow hlt] at hb
      simp at hb
    simp [hb, hi]
  · simp [hb]

theorem and_mask_absorb (a c m : Nat) (hm : m < 2 ^ 32) :
    ((a &&& ((2 ^ 32 - 1) ^^^ m)) &&& c) &&& m = 0 := by
  apply Nat.eq_of_testBit_eq
  intro i
  simp only [Nat.testBit_and, Nat.testBit_xor, Nat.testBit_two_pow_sub_one,
    Nat.zero_testBit]
  by_cases hb : m.testBit i
  · have hi : i < 32 := by
      by_contra hge
      have hlt : m < 2 ^ i :=
        lt_of_lt_of_le hm (Nat.pow_le_pow_right (by omega) (by omega))
      rw [Nat.testBit_lt_two_pow hlt] at hb
      simp at hb
    simp [hb, hi]
  · simp [hb]

/-- C9: `dw1000_dev_enter_sleep` followed by a successful
`dw1000_dev_wakeup` leaves both antenna-delay fields of the handle
unchanged, re-applies both values to the device registers, clears the
SLP2INIT and ALL_RX_ERR bits of SYS_STATUS, and clears `sleeping`. -/
theorem dw1000_sleep_wakeup_antenna (d : SleepDev) (env : Nat → Nat)
    (hsucc : wakeup_poll env 0 5 = DWT_DEVICE_ID) :
    (dw1000_dev_wakeup env (dw1000_dev_enter_sleep d)).rx_antenna_delay =
      d.rx_antenna_delay ∧
    (dw1000_dev_wakeup env (dw1000_dev_enter_sleep d)).tx_antenna_delay =
      d.tx_antenna_delay ∧
    (dw1000_dev_wakeup env (dw1000_dev_enter_sleep d)).regs.lde_rxantd =
      d.rx_antenna_delay ∧
    (dw1000_dev_wakeup env (dw1000_dev_enter_sleep d)).regs.tx_antd =
      d.tx_antenna_delay ∧
    (dw1000_dev_wakeup env (dw1000_dev_enter_sleep d)).regs.sys_status &&&
      SYS_STATUS_SLP2INIT = 0 ∧
    (dw1000_dev_wakeup env (dw1000_dev_enter_sleep d)).regs.sys_status &&&
      SYS_STATUS_ALL_RX_ERR = 0 ∧
    (dw1000_dev_wakeup env (dw1000_dev_enter_sleep d)).sleeping = false := by
  refine ⟨?_, ?_, ?_, ?_, ?_, ?_, ?_⟩
  · simp [dw1000_dev_wakeup, dw1000_dev_enter_sleep]
  · simp [dw1000_dev_wakeup, dw1000_dev_enter_sleep]
  · simp [dw1000_dev_wakeup, dw1000_dev_enter_sleep]
  · simp [dw1000_dev_wakeup, dw1000_dev_enter_sleep]
  · simp only [dw1000_dev_wakeup, dw1000_dev_enter_sleep, sysStatusWrite]
    exact and_mask_absorb _ _ _ (by norm_num [SYS_STATUS_SLP2INIT])
  · simp only [dw1000_dev_wakeup, dw1000_dev_enter_sleep, sysStatusWrite]
    exact and_not_mask _ _ (by norm_num [SYS_STATUS_ALL_RX_ERR])
  · simp [dw1000_dev_wakeup, dw1000_dev_enter_sleep, hsucc]

/-- C9 witness: antenna delays 0x4050 and 0x4060 survive the
sleep/wakeup round trip and land back in the device registers, with the
status bits cleared from an all-ones SYS_STATUS. -/
theorem dw1000_sleep_wakeup_antenna_witness :
    (dw1000_dev_wakeup envWakeOk (dw1000_dev_enter_sleep sleepDevEx)).regs.lde_rxantd =
      sleepDevEx.rx_antenna_delay ∧
    (dw1000_dev_wakeup envWakeOk (dw1000_dev_enter_sleep sleepDevEx)).regs.tx_antd =
      sleepDevEx.tx_antenna_delay ∧
    (dw1000_dev_wakeup envWakeOk (dw1000_dev_enter_sleep sleepDevEx)).regs.sys_status &&&
      SYS_STATUS_SLP2INIT = 0 := by
  have h := dw1000_sleep_wakeup_antenna sleepDevEx envWakeOk
    (by rw [wakeup_poll]; norm_num [envWakeOk, DWT_DEVICE_ID])
  exact ⟨h.2.2.1, h.2.2.2.1, h.2.2.2.2.1⟩

theorem forwardExt_rng (f : DevInstance → DevInstance) (sel : ExtCb → Bool)
    (e : EngineEvent) (s : DevInstance) (hf : ∀ t, (f t).rng = t.rng) :
    (forwardExt f sel e s).rng = s.rng := by
  simp only [forwardExt, emit]
  split_ifs <;> simp [hf]

theorem forwardExt_extChain (f : DevInstance → DevInstance) (sel : ExtCb → Bool)
    (e : EngineEvent) (s : DevInstance) :
    (forwardExt f sel e s).extChain = s.extChain := by
  simp only [forwardExt, emit]
  split_ifs <;> simp

theorem forwardExt_events_of (f : DevInstance → DevInstance) (sel : ExtCb → Bool)
    (e : EngineEvent) (s : DevInstance) (hfe : ∀ t, (f t).events = t.events)
    (hch : s.extChain ≠ []) (hsel : sel s.extChain.head! = true) :
    (forwardExt f sel e s).events = s.events ++ [e] := by
  simp only [forwardExt, emit]
  rw [if_pos hch, if_pos hsel]
  simp [hfe]

/-- C7: on an RX-complete dispatch whose frame control is not
FCNTL_IEEE_RANGE_16 the TWR engine performs no TWR state transition (the
whole `rng` sub-instance, ring and idx and semaphore included, is
unchanged provided the extension handler itself leaves it alone),
forwards the event to the extension chain when one is installed, and
restores `extension_cb` to the saved head after the dispatch returns —
for every behavior of the invoked handler. -/
theorem rng_rx_complete_cb_nontwr_passthrough
    (extRun : DevInstance → DevInstance) (env : RxEnv) (inst : DevInstance)
    (hfc : inst.fctrl ≠ FCNTL_IEEE_RANGE_16)
    (hrng : ∀ s, (extRun s).rng = s.rng)
    (hev : ∀ s, (extRun s).events = s.events) :
    (rng_rx_complete_cb extRun env inst).rng = inst.rng ∧
    (rng_rx_complete_cb extRun env inst).extChain = inst.extChain ∧
    (inst.extChain ≠ [] → (inst.extChain.head!).has_rx_complete = true →
      (rng_rx_complete_cb extRun env inst).events =
        inst.events ++ [EngineEvent.rxCompleteExt]) := by
  refine ⟨?_, ?_, ?_⟩
  · simp only [rng_rx_complete_cb, if_neg hfc]
    split_ifs with h2
    · exact forwardExt_rng _ _ _ _ hrng
    · have hch : inst.extChain = [] := by simpa using h2
      by_cases h3 : env.startRxError <;>
        simp [restartRxOrError, rng_rx_error_cb, forwardExt, hch, hfc, h3]
  · simp only [rng_rx_complete_cb, if_neg hfc]
    split_ifs with h2
    · exact forwardExt_extChain _ _ _ _
    · have hch : inst.extChain = [] := by simpa using h2
      by_cases h3 : env.startRxError <;>
        simp [restartRxOrError, rng_rx_error_cb, forwardExt, hch, hfc, h3]
  · intro hne hsel
    simp only [rng_rx_complete_cb, if_neg hfc, if_pos hne]
    exact forwardExt_events_of _ _ _ _ hev hne hsel

/-- C7 witness: a frame with fctrl 0x1234 dispatched through a one-entry
chain leaves the TWR instance untouched, restores the cursor, and
invokes the entry's rx-complete reference. -/
theorem rng_rx_complete_cb_nontwr_passthrough_witness :
    (rng_rx_complete_cb (fun s => s) {} instNonTwr).rng = instNonTwr.rng ∧
    (rng_rx_complete_cb (fun s => s) {} instNonTwr).extChain = instNonTwr.extChain ∧
    (rng_rx_complete_cb (fun s => s) {} instNonTwr).events =
      instNonTwr.events ++ [EngineEvent.rxCompleteExt] := by
  have h := rng_rx_complete_cb_nontwr_passthrough (fun s => s) {} instNonTwr
    (by decide) (fun s => rfl) (fun s => rfl)
  exact ⟨h.1, h.2.1, h.2.2 (by decide) (by decide)⟩

/-- C6 counterexample: a `DWT_SS_TWR` arrival whose response transmit is
rejected, with a chain entry whose tx-error reference is installed — the
engine releases the TWR semaphore but never invokes tx_error_cb. -/
theorem rng_start_tx_error_counterexample :
    (rng_rx_complete_cb (fun s => s) envSsTwrErr instTwrErr).rng.sem =
      instTwrErr.rng.sem + 1 ∧
    EngineEvent.txErrorExt ∉
      (rng_rx_complete_cb (fun s => s) envSsTwrErr instTwrErr).events := by
  refine ⟨?_, ?_⟩ <;> decide

theorem dispatch_eq_ss (f : DevInstance → DevInstance) (env : RxEnv) (inst : DevInstance) :
    rng_rx_dispatch f env inst DWT_SS_TWR = handleTwrFirst env inst DWT_SS_TWR_T1 := by
  norm_num [rng_rx_dispatch, DWT_SS_TWR, DWT_SS_TWR_T1, DWT_SS_TWR_FINAL]

theorem dispatch_eq_ssT1 (f : DevInstance → DevInstance) (env : RxEnv) (inst : DevInstance) :
    rng_rx_dispatch f env inst DWT_SS_TWR_T1 = handleSsTwrT1 f env inst := by
  norm_num [rng_rx_dispatch, DWT_SS_TWR, DWT_SS_TWR_T1, DWT_SS_TWR_FINAL]

theorem dispatch_eq_ds (f : DevInstance → DevInstance) (env : RxEnv) (inst : DevInstance) :
    rng_rx_dispatch f env inst DWT_DS_TWR = handleTwrFirst env inst DWT_DS_TWR_T1 := by
  norm_num [rng_rx_dispatch, DWT_SS_TWR, DWT_SS_TWR_FINAL, DWT_DS_TWR, DWT_DS_TWR_T1,
    DWT_DS_TWR_FINAL]

theorem dispatch_eq_dsT1 (f : DevInstance → DevInstance) (env : RxEnv) (inst : DevInstance) :
    rng_rx_dispatch f env inst DWT_DS_TWR_T1 = handleDsTwrT1 f env inst := by
  norm_num [rng_rx_dispatch, DWT_SS_TWR, DWT_SS_TWR_FINAL, DWT_DS_TWR, DWT_DS_TWR_T1,
    DWT_DS_TWR_FINAL]

theorem dispatch_eq_dsT2 (f : DevInstance → DevInstance) (env : RxEnv) (inst : DevInstance) :
    rng_rx_dispatch f env inst DWT_DS_TWR_T2 = handleDsTwrT2 env inst := by
  norm_num [rng_rx_dispatch, DWT_SS_TWR, DWT_SS_TWR_FINAL, DWT_DS_TWR, DWT_DS_TWR_T1,
    DWT_DS_TWR_T2, DWT_DS_TWR_FINAL]

theorem dispatch_eq_ext (f : DevInstance → DevInstance) (env : RxEnv) (inst : DevInstance) :
    rng_rx_dispatch f env inst DWT_DS_TWR_EXT = handleTwrFirst env inst DWT_DS_TWR_EXT_T1 := by
  norm_num [rng_rx_dispatch, DWT_SS_TWR, DWT_SS_TWR_FINAL, DWT_DS_TWR, DWT_DS_TWR_FINAL,
    DWT_DS_TWR_EXT, DWT_DS_TWR_EXT_T1, DWT_DS_TWR_EXT_FINAL]

theorem dispatch_eq_extT1 (f : DevInstance → DevInstance) (env : RxEnv) (inst : DevInstance) :
    rng_rx_dispatch f env inst DWT_DS_TWR_EXT_T1 = handleDsTwrExtT1 env inst := by
  norm_num [rng_rx_dispatch, DWT_SS_TWR, DWT_SS_TWR_FINAL, DWT_DS_TWR, DWT_DS_TWR_FINAL,
    DWT_DS_TWR_EXT, DWT_DS_TWR_EXT_T1, DWT_DS_TWR_EXT_FINAL]

theorem dispatch_eq_extT2 (f : DevInstance → DevInstance) (env : RxEnv) (inst : DevInstance) :
    rng_rx_dispatch f env inst DWT_DS_TWR_EXT_T2 = handleDsTwrExtT2 env inst := by
  norm_num [rng_rx_dispatch, DWT_SS_TWR, DWT_SS_TWR_FINAL, DWT_DS_TWR, DWT_DS_TWR_FINAL,
    DWT_DS_TWR_EXT, DWT_DS_TWR_EXT_T1, DWT_DS_TWR_EXT_T2, DWT_DS_TWR_EXT_FINAL]

theorem not_mem_emit (s : DevInstance) (e a : EngineEvent)
    (ha : a ∉ s.events) (hae : a ≠ e) : a ∉ (emit s e).events := by
  simp only [emit, List.mem_append, List.mem_singleton]
  intro hmem
  rcases hmem with hmem | hmem
  · exact ha hmem
  · exact hae hmem

theorem forwardExt_not_mem (f : DevInstance → DevInstance) (sel : ExtCb → Bool)
    (e : EngineEvent) (s : DevInstance) (hfe : ∀ t, (f t).events = t.events)
    (a : EngineEvent) (ha : a ∉ s.events) (hae : a ≠ e) :
    a ∉ (forwardExt f sel e s).events := by
  simp only [forwardExt, emit]
  split_ifs with h1 h2
  · simp only [hfe, List.mem_append, List.mem_singleton]
    intro hmem
    rcases hmem with hmem | hmem
    · exact ha hmem
    · exact hae hmem
  · exact ha
  · exact ha

/-- C6 (amended): whenever `dw1000_start_tx` reports start_tx_error
during a TWR transmission the engine releases the TWR semaphore; the
chain's tx_error_cb is additionally invoked only by `dw1000_rng_request`
(the initial request) and the `DWT_DS_TWR_T1` branch — all other
transmitting state-machine branches (SS_TWR, SS_TWR_T1, DS_TWR,
DS_TWR_T2, DS_TWR_EXT, DS_TWR_EXT_T1, DS_TWR_EXT_T2) release the
semaphore without invoking the tx-error reference: part (1) is the
release for every transmitting code, part (2) the tx_error_cb
invocation in the DS_TWR_T1 branch, part (3) that no other transmitting
branch invokes tx_error_cb, part (4) release and invocation for the
initial request. -/
theorem rng_start_tx_error_releases_sem
    (extRun : DevInstance → DevInstance) (env : RxEnv) (inst : DevInstance)
    (hrng : ∀ s, (extRun s).rng = s.rng)
    (hev : ∀ s, (extRun s).events = s.events)
    (hfc : inst.fctrl = FCNTL_IEEE_RANGE_16)
    (hdst : env.rxFrame.dst_address = inst.my_short_address)
    (hlen : SZ_TWR_FRAME ≤ inst.frame_len)
    (htx : env.startTxError = true) :
    (env.rxFrame.code ∈ [DWT_SS_TWR, DWT_SS_TWR_T1, DWT_DS_TWR, DWT_DS_TWR_T1,
        DWT_DS_TWR_T2, DWT_DS_TWR_EXT, DWT_DS_TWR_EXT_T1, DWT_DS_TWR_EXT_T2] →
      (rng_rx_complete_cb extRun env inst).rng.sem = inst.rng.sem + 1) ∧
    (env.rxFrame.code = DWT_DS_TWR_T1 → inst.extChain ≠ [] →
      (inst.extChain.head!).has_tx_error = true →
      (rng_rx_complete_cb extRun env inst).events =
        inst.events ++ [EngineEvent.txErrorExt]) ∧
    (env.rxFrame.code ∈ [DWT_SS_TWR, DWT_SS_TWR_T1, DWT_DS_TWR, DWT_DS_TWR_T2,
        DWT_DS_TWR_EXT, DWT_DS_TWR_EXT_T1, DWT_DS_TWR_EXT_T2] →
      EngineEvent.txErrorExt ∉ inst.events →
      EngineEvent.txErrorExt ∉ (rng_rx_complete_cb extRun env inst).events) ∧
    (∀ dst code2, 1 ≤ inst.rng.sem →
      (dw1000_rng_request extRun env inst dst code2).rng.sem = inst.rng.sem ∧
      (inst.extChain ≠ [] → (inst.extChain.head!).has_tx_error = true →
        (dw1000_rng_request extRun env inst dst code2).events =
          inst.events ++ [EngineEvent.txErrorExt])) := by
  have hl1 : ¬ (inst.frame_len < SZ_RNG_REQUEST) := by
    simp only [SZ_RNG_REQUEST, SZ_TWR_FRAME] at hlen ⊢
    omega
  have hl2 : ¬ (inst.frame_len < SZ_RNG_RESPONSE) := by
    simp only [SZ_RNG_RESPONSE, SZ_TWR_FRAME] at hlen ⊢
    omega
  have hl3 : ¬ (inst.frame_len < SZ_TWR_FINAL) := by
    simp only [SZ_TWR_FINAL, SZ_TWR_FRAME] at hlen ⊢
    omega
  have hl4 : ¬ (inst.frame_len < SZ_TWR_FRAME) := by
    simp only [SZ_TWR_FRAME] at hlen ⊢
    omega
  have hne : ¬ (env.rxFrame.dst_address ≠ inst.my_short_address) := by simp [hdst]
  refine ⟨?_, ?_, ?_, ?_⟩
  · intro hcode
    simp only [rng_rx_complete_cb, if_pos hfc, if_neg hne]
    simp only [List.mem_cons, List.not_mem_nil, or_false] at hcode
    rcases hcode with h | h | h | h | h | h | h | h
    · rw [h, dispatch_eq_ss]
      simp only [handleTwrFirst, if_neg hl1, if_pos htx]
    · rw [h, dispatch_eq_ssT1]
      simp only [handleSsTwrT1, if_neg hl2, if_pos htx]
      rw [forwardExt_rng _ _ _ _ hrng]
    · rw [h, dispatch_eq_ds]
      simp only [handleTwrFirst, if_neg hl1, if_pos htx]
    · rw [h, dispatch_eq_dsT1]
      simp only [handleDsTwrT1, if_neg hl2, if_pos htx]
      rw [forwardExt_rng _ _ _ _ hrng]
    · rw [h, dispatch_eq_dsT2]
      simp only [handleDsTwrT2, if_neg hl3, if_pos htx, emit]
      split_ifs <;> simp
    · rw [h, dispatch_eq_ext]
      simp only [handleTwrFirst, if_neg hl1, if_pos htx]
    · rw [h, dispatch_eq_extT1]
      simp only [handleDsTwrExtT1, if_neg hl2, if_pos htx, emit]
      split_ifs <;> simp
    · rw [h, dispatch_eq_extT2]
      simp only [handleDsTwrExtT2, if_neg hl4, if_pos htx, emit]
      split_ifs <;> simp
  · intro h hch hsel
    simp only [rng_rx_complete_cb, if_pos hfc, if_neg hne]
    rw [h, dispatch_eq_dsT1]
    simp only [handleDsTwrT1, if_neg hl2, if_pos htx]
    have hgen : ∀ s : DevInstance, s.extChain = inst.extChain → s.events = inst.events →
        (forwardExt extRun (fun c => c.has_tx_error) EngineEvent.txErrorExt s).events =
          inst.events ++ [EngineEvent.txErrorExt] := by
      intro s hs1 hs2
      rw [forwardExt_events_of _ _ _ _ hev (by rw [hs1]; exact hch)
        (by rw [hs1]; exact hsel), hs2]
    exact hgen _ rfl rfl
  · intro hcode hnm
    simp only [rng_rx_complete_cb, if_pos hfc, if_neg hne]
    simp only [List.mem_cons, List.not_mem_nil, or_false] at hcode
    rcases hcode with h | h | h | h | h | h | h
    · rw [h, dispatch_eq_ss]
      simp only [handleTwrFirst, if_neg hl1, if_pos htx]
      exact hnm
    · rw [h, dispatch_eq_ssT1]
      simp only [handleSsTwrT1, if_neg hl2, if_pos htx]
      exact forwardExt_not_mem _ _ _ _ hev _ hnm (by decide)
    · rw [h, dispatch_eq_ds]
      simp only [handleTwrFirst, if_neg hl1, if_pos htx]
      exact hnm
    · rw [h, dispatch_eq_dsT2]
      simp only [handleDsTwrT2, if_neg hl3, if_pos htx]
      split_ifs
      · exact not_mem_emit _ _ _ hnm (by decide)
      · exact hnm
    · rw [h, dispatch_eq_ext]
      simp only [handleTwrFirst, if_neg hl1, if_pos htx]
      exact hnm
    · rw [h, dispatch_eq_extT1]
      simp only [handleDsTwrExtT1, if_neg hl2, if_pos htx]
      split_ifs
      · exact not_mem_emit _ _ _ hnm (by decide)
      · exact hnm
    · rw [h, dispatch_eq_extT2]
      simp only [handleDsTwrExtT2, if_neg hl4, if_pos htx]
      split_ifs
      · exact not_mem_emit _ _ _ (not_mem_emit _ _ _ hnm (by decide)) (by decide)
      · exact not_mem_emit _ _ _ hnm (by decide)
      · exact not_mem_emit _ _ _ hnm (by decide)
      · exact hnm
  · intro dst code2 hsem
    constructor
    · simp only [dw1000_rng_request, if_pos htx]
      rw [forwardExt_rng _ _ _ _ hrng]
      simp
      omega
    · intro hch hsel
      simp only [dw1000_rng_request, if_pos htx]
      have hgen : ∀ s : DevInstance, s.extChain = inst.extChain → s.events = inst.events →
          (forwardExt extRun (fun c => c.has_tx_error) EngineEvent.txErrorExt s).events =
            inst.events ++ [EngineEvent.txErrorExt] := by
        intro s hs1 hs2
        rw [forwardExt_events_of _ _ _ _ hev (by rw [hs1]; exact hch)
          (by rw [hs1]; exact hsel), hs2]
      exact hgen _ rfl rfl

/-- C6 witness: at the `DWT_DS_TWR_T1` branch of the concrete error
state the engine releases the semaphore and invokes the chain's
tx-error reference. -/
theorem rng_start_tx_error_releases_sem_witness :
    (rng_rx_complete_cb (fun s => s) envDsT1Err instTwrErr).rng.sem =
      instTwrErr.rng.sem + 1 ∧
    (rng_rx_complete_cb (fun s => s) envDsT1Err instTwrErr).events =
      instTwrErr.events ++ [EngineEvent.txErrorExt] := by
  have h := rng_start_tx_error_releases_sem (fun s => s) envDsT1Err instTwrErr
    (fun s => rfl) (fun s => rfl) rfl (by decide) (by decide) rfl
  exact ⟨h.1 (by decide), h.2.1 (by decide) (by decide) (by decide)⟩

end DW1000
